import Mathlib

/-!
Verification of the ChainUI core (`src/chainui.js`) against its specification.

The JavaScript source is shallowly embedded: each stateful class becomes a Lean
structure holding the fields the verified methods touch, methods become pure
functions on those structures, and observable side effects (subscriber
callbacks, history notifications, destroyed runtimes) are returned as explicit
event lists.  JavaScript exceptions are modelled with `Except`.
-/

namespace ChainUI

/-! ## JavaScript values and `Object.is`

`createState` compares an incoming write against the stored value with
`Object.is`: value equality for primitives, reference identity for composite
values.  We model a JS value as either a primitive (identified by its printed
value) or a reference (identified by a heap identity); `Object.is` is then
decidable equality of this representation.  (`NaN`/`-0` corner cases of
`Object.is` do not interact with any claim and are not distinguished.) -/

inductive JSValue where
  | prim (lit : String)
  | ref (id : Nat)
deriving DecidableEq, Repr

/-- Model of `Object.is(a, b)`. -/
def objectIs (a b : JSValue) : Bool := a == b

/-! ## ReactiveState (`createState`)

The closure state of `createState` is `currentValue` plus the `subscribers`
set.  JS `Set` iterates in insertion order and ignores re-insertion of an
element already present; we model it as a duplicate-free list.  Callbacks are
identified by tokens (`Nat`); an invocation of callback `c` with value `v` is
recorded as the pair `(c, v)` in the returned call list. -/

structure ChainState where
  value : JSValue
  subscribers : List Nat
deriving DecidableEq, Repr

namespace ChainState

/-- Model of the `value` setter: `if (Object.is(currentValue, newValue))
return; currentValue = newValue; subscribers.forEach(sub => sub(currentValue))`. -/
def setValue (s : ChainState) (newValue : JSValue) : ChainState × List (Nat × JSValue) :=
  if objectIs s.value newValue then (s, [])
  else ({ s with value := newValue }, s.subscribers.map (fun c => (c, newValue)))

/-- Model of `subscribe(callback)`: add to the subscriber set, invoke the
callback once with the current value, return (here: leave the caller to use)
an unsubscribe closure modelled by `unsubscribe`. -/
def subscribe (s : ChainState) (cb : Nat) : ChainState × List (Nat × JSValue) :=
  let subs := if cb ∈ s.subscribers then s.subscribers else s.subscribers ++ [cb]
  ({ s with subscribers := subs }, [(cb, s.value)])

/-- Model of the closure returned by `subscribe`: `() => subscribers.delete(callback)`. -/
def unsubscribe (s : ChainState) (cb : Nat) : ChainState :=
  { s with subscribers := s.subscribers.filter (fun c => !(c == cb)) }

end ChainState

/-! ## Operations and `OperationStream`

An operation is a tagged record carrying a target node id.  Only the variants
relevant to stream coalescing and batching are modelled; the remaining
variants behave like `other` for `OperationStream.add` (they are appended
unconditionally). -/

inductive Operation where
  | setAttribute (nodeId name value : String)
  | setStyle (nodeId property value : String)
  | setTextContent (nodeId content : String)
  | addClass (nodeId className : String)
  | appendChild (nodeId parentId childId : String)
deriving DecidableEq, Repr

/-- The `nodeId` field common to every operation record. -/
def Operation.nodeId : Operation → String
  | .setAttribute n _ _ => n
  | .setStyle n _ _ => n
  | .setTextContent n _ => n
  | .addClass n _ => n
  | .appendChild n _ _ => n

/-- The coalescing test of `OperationStream.add`: a new operation merges into
the immediately preceding one exactly when both target the same node id and
are `SET_ATTRIBUTE` on the same name or `SET_STYLE` on the same property; the
merged record keeps the old entry with its `value` overwritten. -/
def coalescedWith (lastOp op : Operation) : Option Operation :=
  if op.nodeId = lastOp.nodeId then
    match lastOp, op with
    | .setAttribute n name _, .setAttribute _ name2 v =>
        if name2 = name then some (.setAttribute n name v) else none
    | .setStyle n prop _, .setStyle _ prop2 v =>
        if prop2 = prop then some (.setStyle n prop v) else none
    | _, _ => none
  else none

namespace OperationStream

/-- Model of `OperationStream.add`: inspect the last entry of `operations`;
if the new operation coalesces with it, overwrite that entry in place,
otherwise push the new operation. -/
def add (ops : List Operation) (op : Operation) : List Operation :=
  match ops.getLast? with
  | some lastOp =>
      match coalescedWith lastOp op with
      | some merged => ops.dropLast ++ [merged]
      | none => ops ++ [op]
  | none => ops ++ [op]

end OperationStream

/-- Whether an operation is a `SET_ATTRIBUTE` on the given node id and
attribute name. -/
def Operation.isSetAttrOn (op : Operation) (node name : String) : Bool :=
  match op with
  | .setAttribute n m _ => n == node && m == name
  | _ => false

/-- Whether the stream's last entry is not a `SET_ATTRIBUTE` on the given
node/name pair (so a fresh `SET_ATTRIBUTE` on that pair will be appended, not
merged into pre-existing content). -/
def lastNotSetAttrOn (ops : List Operation) (node name : String) : Bool :=
  match ops.getLast? with
  | none => true
  | some lastOp => ! lastOp.isSetAttrOn node name

/-! ## ChainRuntime batching (`execute` / `scheduleBatchExecution`)

The runtime fields touched by `execute` and the scheduled flush: `batchQueue`,
the `isBatchingScheduled` flag, and the registered `requestAnimationFrame`
callback.  `pendingFrames` counts animation-frame callbacks registered and not
yet fired (the JS code stores their id in `animationFrameId`); `applied` is the
trace of operations passed to `applyOperation`, in order.  Execution is
single-threaded and cooperative: a flush runs only when the host fires the
registered frame callback. -/

structure ChainRuntimeSched where
  batchQueue : List Operation
  isBatchingScheduled : Bool
  pendingFrames : Nat
  applied : List Operation
deriving DecidableEq, Repr

namespace ChainRuntimeSched

/-- Model of `scheduleBatchExecution`: if no batch is scheduled, set the flag
and register one animation-frame callback; otherwise do nothing. -/
def scheduleBatchExecution (s : ChainRuntimeSched) : ChainRuntimeSched :=
  if s.isBatchingScheduled then s
  else { s with isBatchingScheduled := true, pendingFrames := s.pendingFrames + 1 }

/-- Model of `execute(operations, immediate)`: immediate operations are applied
synchronously in order; otherwise they are appended to the batch queue and a
flush is scheduled. -/
def execute (s : ChainRuntimeSched) (ops : List Operation) (immediate : Bool) :
    ChainRuntimeSched :=
  if immediate then { s with applied := s.applied ++ ops }
  else scheduleBatchExecution { s with batchQueue := s.batchQueue ++ ops }

/-- Model of the animation-frame callback registered by
`scheduleBatchExecution` firing.  The queue is swapped to an empty one before
iterating, so non-immediate `execute` calls made while the queue is applied
(the `enqueuedDuringFlush` argument) land in the fresh queue; their calls to
`scheduleBatchExecution` run while `isBatchingScheduled` is still `true` and
therefore register no new frame.  Afterwards the flag and frame id are
cleared. -/
def flushFrame (s : ChainRuntimeSched) (enqueuedDuringFlush : List Operation) :
    ChainRuntimeSched :=
  { batchQueue := enqueuedDuringFlush
    isBatchingScheduled := false
    pendingFrames := s.pendingFrames - 1
    applied := s.applied ++ s.batchQueue }

/-- A runtime at rest between flushes: the scheduled flag is set exactly when
one frame callback is registered. -/
def wf (s : ChainRuntimeSched) : Prop :=
  s.pendingFrames = if s.isBatchingScheduled then 1 else 0

end ChainRuntimeSched

/-! ## Route parameters as JS objects

Route parameters are JS plain objects with string values.  We model them as
association lists in key-insertion order with duplicate-free keys, matching
the observable behaviour of property assignment (`obj[k] = v` overwrites in
place, new keys append) and `Object.keys` enumeration order. -/

abbrev Params := List (String × String)

/-- Property read `obj[k]` (`undefined` is `none`). -/
def objGet (ps : Params) (k : String) : Option String :=
  (ps.find? (fun kv => kv.1 == k)).map (fun kv => kv.2)

/-- Property assignment `obj[k] = v`: overwrite in place or append. -/
def objSet (ps : Params) (k v : String) : Params :=
  if (ps.find? (fun kv => kv.1 == k)).isSome then
    ps.map (fun kv => if kv.1 == k then (k, v) else kv)
  else ps ++ [(k, v)]

/-- Object spread `{...a, ...b}`. -/
def objMerge (a b : Params) : Params :=
  b.foldl (fun acc kv => objSet acc kv.1 kv.2) a

/-- `Map.delete`-style removal of a key. -/
def objDelete (ps : Params) (k : String) : Params :=
  ps.filter (fun kv => !(kv.1 == k))

/-- Model of `ChainPageRouter._areParamsChanged` restricted to plain objects
(the only shape a `Params` value can take; the JS null/primitive/array
branches are unreachable here).  `Object.keys(p).length` agrees with the list
length because keys are duplicate-free. -/
def areParamsChanged (p1 p2 : Params) : Bool :=
  if p1.length ≠ p2.length then true
  else p1.any (fun kv =>
    match objGet p2 kv.1 with
    | none => true
    | some v => v != kv.2)

/-! ## Paths, route patterns and matching

`register` compiles `path.replace(/:(\w+)/g, ...)` into the anchored regex
`^...$` in which each `:name` becomes `([^/]+)`.  For route paths in the
documented form — every parameter occupies a whole `/`-separated segment and
literal text contains no regex metacharacters — the compiled regex matches a
path exactly when segment-wise matching succeeds (a `([^/]+)` group can never
cross a `/`), with identical captures.  We model the compiled matcher at that
segment level. -/

/-- JS `String.prototype.split` on a single-character separator. -/
def splitChars (c : Char) : List Char → List (List Char)
  | [] => [[]]
  | x :: xs =>
      match splitChars c xs with
      | [] => [[]]
      | g :: gs => if x = c then [] :: g :: gs else (x :: g) :: gs

/-- `s.split(c)` as Lean strings. -/
def splitStr (c : Char) (s : String) : List String :=
  (splitChars c s.data).map (fun g => String.mk g)

/-- One compiled pattern segment: literal text or a named `([^/]+)` capture. -/
inductive Seg where
  | lit (s : String)
  | param (name : String)
deriving DecidableEq, Repr

/-- Compile one `/`-separated segment of a registered path. -/
def compileSeg (s : String) : Seg :=
  match s.data with
  | ':' :: rest => .param (String.mk rest)
  | _ => .lit s

/-- Compile a registered route path into its matcher. -/
def compilePathPattern (path : String) : List Seg :=
  (splitStr '/' path).map compileSeg

/-- Anchored match of a compiled pattern against the `/`-split of a pathname;
returns the captures in parameter order.  A capture group `([^/]+)` requires a
non-empty segment. -/
def matchSegs : List Seg → List String → Option Params
  | [], [] => some []
  | .lit s :: ps, t :: ts => if t = s then matchSegs ps ts else none
  | .param n :: ps, t :: ts =>
      if t = "" then none
      else (matchSegs ps ts).map (fun rest => (n, t) :: rest)
  | _, _ => none

/-- Split one `k=v` query entry (percent-decoding is not modelled; no claim
involves encoded text). -/
def queryEntryKV (e : List Char) : String × String :=
  (String.mk (e.takeWhile (fun c => !(c == '='))),
   String.mk ((e.dropWhile (fun c => !(c == '='))).drop 1))

/-- Model of iterating `new URLSearchParams(queryString)` and assigning each
pair into a params object (later duplicates overwrite). -/
def parseQueryString (qs : String) : Params :=
  (splitChars '&' qs.data).foldl
    (fun acc e =>
      if e.isEmpty then acc
      else objSet acc (queryEntryKV e).1 (queryEntryKV e).2)
    []

/-! ## Router data model -/

/-- The value of the router's `currentPage` reactive state. -/
structure Page where
  id : Option String
  params : Params
deriving DecidableEq, Repr

/-- One entry of `ChainPageRouter.pages`: the component factory (identified by
a token), route options, and the compiled matcher.  The `beforeEnter` guard is
modelled by the Bool its (possibly asynchronous) JS counterpart resolves to;
`hasOnLeave` records whether an `onLeave` hook is registered. -/
structure Route where
  factory : String
  keepAlive : Bool
  beforeEnter : Option (Params → Page → Bool)
  hasOnLeave : Bool
  segs : List Seg

/-- `pages.get(path)` on the registration-ordered route table. -/
def lookupRoute (pages : List (String × Route)) (path : String) : Option Route :=
  (pages.find? (fun pr => pr.1 == path)).map (fun pr => pr.2)

/-- Model of `ChainPageRouter._matchRoute`: split off the query string, parse
it, then scan registered routes in registration order — first structural match
wins; captures overwrite query parameters. -/
def matchRoute (pages : List (String × Route)) (path : String) :
    Option (String × Route × Params) :=
  let parts := splitStr '?' path
  let pathname := parts.headD path
  let queryString := (parts.drop 1).headD ""
  let queryParams := if queryString = "" then [] else parseQueryString queryString
  pages.findSome? (fun pr =>
    match matchSegs pr.2.segs (splitStr '/' pathname) with
    | some captured =>
        some (pr.1, pr.2,
          captured.foldl (fun acc kv => objSet acc kv.1 kv.2) queryParams)
    | none => none)

/-! ## NavManager -/

inductive NavMode where
  | history
  | hash
  | memory
deriving DecidableEq, Repr

/-- A `NavigationEntry` (`{path, state}`); `state` carries the params object. -/
structure Location where
  path : String
  state : Params
deriving DecidableEq, Repr

/-- The navigation stack of `NavManager`.  The `window.history` mirror calls
are host effects outside the model; the in-memory stack is maintained in every
mode. -/
structure NavManager where
  defaultPath : String
  mode : NavMode
  stack : List Location
  index : Nat
deriving DecidableEq, Repr

namespace NavManager

/-- Model of `NavManager.navigate`: replace the current entry, or truncate the
forward part of the stack and push; then notify listeners (the returned
location list). -/
def navigate (nav : NavManager) (path : String) (state : Params) (replace : Bool) :
    NavManager × List Location :=
  let location : Location := ⟨path, state⟩
  let nav2 :=
    if replace ∧ nav.index < nav.stack.length then
      { nav with stack := nav.stack.set nav.index location }
    else
      let stack2 := nav.stack.take (nav.index + 1) ++ [location]
      { nav with stack := stack2, index := stack2.length - 1 }
  (nav2, [location])

/-- Model of `NavManager.getLocation`.  `stack[index]` is in bounds in every
state reachable from the constructor, so the out-of-bounds `undefined` of JS
indexing is collapsed to the same default as the empty-stack branch. -/
def getLocation (nav : NavManager) : Location :=
  if nav.stack.length = 0 then ⟨"/", []⟩
  else nav.stack.getD nav.index ⟨"/", []⟩

/-- Model of `NavManager.goBack`: step back and notify only when not already
at the oldest entry. -/
def goBack (nav : NavManager) : NavManager × List Location :=
  if nav.index > 0 then
    let nav2 := { nav with index := nav.index - 1 }
    (nav2, [nav2.stack.getD nav2.index ⟨"/", []⟩])
  else (nav, [])

end NavManager

/-! ## ChainPageRouter: navigation -/

/-- The router fields read and written by `navigate`, `goBack` and
`_handleLocationChange`.  `options.normalizePath` defaults to the identity and
is modelled as such. -/
structure ChainPageRouter where
  pages : List (String × Route)
  currentPage : Page
  history : NavManager
  fallbackPath : String

/-- Observable actions of a navigation: hook/guard invocations, the
`currentPage` commit, the history mutation, and history listener
notifications. -/
inductive NavEvent where
  | onLeave (fromId : String) (fromParams : Params)
  | guardInvoked (pageId : String)
  | commit (pageId : String) (params : Params)
  | historyNav (path : String) (params : Params) (replace : Bool)
  | notified (loc : Location)
deriving DecidableEq, Repr

namespace ChainPageRouter

/-- Model of `register`: a path registered twice is ignored with a warning
(first registration wins). -/
def register (r : ChainPageRouter) (path factory : String) (keepAlive : Bool)
    (beforeEnter : Option (Params → Page → Bool)) (hasOnLeave : Bool) :
    ChainPageRouter :=
  if (lookupRoute r.pages path).isSome then r
  else { r with pages := r.pages ++
      [(path, ⟨factory, keepAlive, beforeEnter, hasOnLeave, compilePathPattern path⟩)] }

/-- The commit tail of `navigate`: set `currentPage` and push/replace into
history. -/
def commitPage (r : ChainPageRouter) (pageId : String) (finalParams : Params)
    (path : String) (replace : Bool) (evs : List NavEvent) :
    ChainPageRouter × List NavEvent :=
  let nav := r.history.navigate path finalParams replace
  ({ r with currentPage := ⟨some pageId, finalParams⟩, history := nav.1 },
   evs ++ [.commit pageId finalParams, .historyNav path finalParams replace]
       ++ nav.2.map .notified)

/-- The guard step of `navigate`: await `beforeEnter` when present; a falsy
resolution returns with no state change. -/
def navigateGuard (r : ChainPageRouter) (pageId : String) (route : Route)
    (finalParams : Params) (path : String) (replace : Bool) (evs : List NavEvent) :
    ChainPageRouter × List NavEvent :=
  match route.beforeEnter with
  | some guard =>
      if guard finalParams r.currentPage then
        commitPage r pageId finalParams path replace (evs ++ [.guardInvoked pageId])
      else (r, evs ++ [.guardInvoked pageId])
  | none => commitPage r pageId finalParams path replace evs

/-- Model of `navigate(path, params, replace)`.  `currentPage.value` is always
a (truthy) object, so the JS `!current` disjunct is constantly false; a thrown
JS error (the unknown-route throw, or the TypeError when the current page id
is no longer registered) is `Except.error`, and on every erroring path the
throw happens before any state mutation. -/
def navigate (r : ChainPageRouter) (path : String) (params : Params)
    (replace : Bool) : Except String (ChainPageRouter × List NavEvent) :=
  match matchRoute r.pages path with
  | none => .error ("Unknown route: " ++ path)
  | some (pageId, route, resolvedParams) =>
      let finalParams := objMerge resolvedParams params
      let current := r.currentPage
      let paramsChanged :=
        current.id != some pageId || areParamsChanged current.params finalParams
      if !paramsChanged then .ok (r, [])
      else
        match current.id with
        | some currentId =>
            match lookupRoute r.pages currentId with
            | none => .error "TypeError: cannot read options of undefined"
            | some oldRoute =>
                .ok (navigateGuard r pageId route finalParams path replace
                  (if oldRoute.hasOnLeave then [.onLeave currentId current.params]
                   else []))
        | none => .ok (navigateGuard r pageId route finalParams path replace [])

/-- Model of `ChainPageRouter.goBack`: delegate to the history manager. -/
def goBack (r : ChainPageRouter) : ChainPageRouter × List Location :=
  let nav := r.history.goBack
  ({ r with history := nav.1 }, nav.2)

/-- `new URL(path, base).pathname` for an absolute-path input: the text before
the first query or fragment delimiter (further URL normalisation is not
modelled; no claim involves a path needing it). -/
def pathnameOf (p : String) : String :=
  String.mk (p.data.takeWhile (fun c => !(c == '?' || c == '#')))

/-- Model of `_handleLocationChange`.  The call it makes to the async
`navigate` is fire-and-forget: a rejected promise is unobserved, and on every
rejecting path the throw precedes any state mutation, so rejection leaves the
router unchanged. -/
def handleLocationChange (r : ChainPageRouter) (loc : Location) :
    ChainPageRouter × List NavEvent :=
  if loc.path = "" then (r, [])
  else
    let pathForRouting :=
      if r.history.mode = NavMode.hash then loc.path else pathnameOf loc.path
    match matchRoute r.pages pathForRouting with
    | none =>
        if pathForRouting ≠ r.fallbackPath then
          match navigate r r.fallbackPath [] true with
          | .ok res => res
          | .error _ => (r, [])
        else (r, [])
    | some (routePath, _route, resolvedParams) =>
        let finalParams := objMerge resolvedParams loc.state
        let current := r.currentPage
        if current.id != some routePath
            || areParamsChanged current.params finalParams then
          ({ r with currentPage := ⟨some routePath, finalParams⟩ },
           [.commit routePath finalParams])
        else (r, [])

end ChainPageRouter

/-! ## Concrete routers used to evaluate the theorems -/

def demoRootRoute : Route := ⟨"rootF", false, none, false, compilePathPattern "/"⟩

def demoUserRoute : Route :=
  ⟨"userF", false, none, false, compilePathPattern "/user/:id"⟩

def demoGuardRoute : Route :=
  ⟨"adminF", false, some (fun _ _ => false), false, compilePathPattern "/admin"⟩

/-- Router state after registering `/` and `/user/:id` and a successful
`navigate('/user/42')`. -/
def demoRouterAtUser : ChainPageRouter :=
  ⟨[("/", demoRootRoute), ("/user/:id", demoUserRoute)],
   ⟨some "/user/:id", [("id", "42")]⟩,
   ⟨"/", .memory, [⟨"/", []⟩, ⟨"/user/42", [("id", "42")]⟩], 1⟩, "/"⟩

/-- Fresh router with a route whose `beforeEnter` guard resolves `false`. -/
def demoRouterGuard : ChainPageRouter :=
  ⟨[("/", demoRootRoute), ("/admin", demoGuardRoute)],
   ⟨none, []⟩, ⟨"/", .memory, [⟨"/", []⟩], 0⟩, "/"⟩

/-- Fresh router whose history sits on an unroutable path. -/
def demoRouterFallback : ChainPageRouter :=
  ⟨[("/", demoRootRoute)], ⟨none, []⟩, ⟨"/", .history, [⟨"/nope", []⟩], 0⟩, "/"⟩

/-! ## Keep-alive runtime cache (the `currentPage` subscriber in `init`)

The cache bookkeeping of the page-change subscriber registered by
`ChainPageRouter.init` (non-memory mode).  Component factories are identified
by tokens; a cache entry `{runtime, params}` is modelled by its params (the
runtime's identity is its factory token); DOM attach/detach and the
`hidden` toggle are host effects outside the model.  `destroyed` logs every
`runtime.destroy()` call in order. -/

/-- `Map.get` on a string-keyed insertion-ordered map. -/
def assocGet {α : Type} (ps : List (String × α)) (k : String) : Option α :=
  (ps.find? (fun kv => kv.1 == k)).map (fun kv => kv.2)

/-- `Map.set`: overwrite in place, or append a new key. -/
def assocSet {α : Type} (ps : List (String × α)) (k : String) (v : α) :
    List (String × α) :=
  if (ps.find? (fun kv => kv.1 == k)).isSome then
    ps.map (fun kv => if kv.1 == k then (k, v) else kv)
  else ps ++ [(k, v)]

/-- `Map.delete`. -/
def assocDelete {α : Type} (ps : List (String × α)) (k : String) :
    List (String × α) :=
  ps.filter (fun kv => !(kv.1 == k))

structure PageCache where
  runtimeCache : List (String × Params)
  cacheKeys : List String
  keepAliveCacheLimit : Nat
  prev : Option (String × String)
  destroyed : List String
deriving DecidableEq, Repr

/-- The outgoing-page block of the subscriber: if the previous page's factory
has a cached runtime, destroy and evict it unless its route is keep-alive (a
keep-alive page is hidden instead; an unregistered previous id also falls to
the hide branch). -/
def outgoingStep (pages : List (String × Route)) (c : PageCache) : PageCache :=
  match c.prev with
  | none => c
  | some (prevId, prevFactory) =>
      match assocGet c.runtimeCache prevFactory with
      | none => c
      | some _ =>
          match lookupRoute pages prevId with
          | some oldCfg =>
              if oldCfg.keepAlive then c
              else { c with
                      runtimeCache := assocDelete c.runtimeCache prevFactory,
                      destroyed := c.destroyed ++ [prevFactory] }
          | none => c

/-- The fresh-instantiation tail of the subscriber: build the page, cache it,
and for keep-alive routes move its factory to the back of the recency list and
evict the least-recently-used entry when the list exceeds
`keepAliveCacheLimit` (`indexOf`/`splice` remove the single occurrence of the
factory — recency keys are duplicate-free — and `shift` pops the oldest). -/
def installPage (c : PageCache) (pid : String)
    (route : Route) (params : Params) : PageCache :=
  let c2 := { c with runtimeCache := assocSet c.runtimeCache route.factory params }
  let c3 :=
    if route.keepAlive then
      let keys1 := (c2.cacheKeys.filter (fun k => !(k == route.factory)))
        ++ [route.factory]
      if keys1.length > c2.keepAliveCacheLimit then
        match keys1 with
        | [] => { c2 with cacheKeys := keys1 }
        | k :: rest =>
            { c2 with
              cacheKeys := rest,
              destroyed := c2.destroyed ++
                (if (assocGet c2.runtimeCache k).isSome then [k] else []),
              runtimeCache := assocDelete c2.runtimeCache k }
      else { c2 with cacheKeys := keys1 }
    else c2
  { c3 with prev := some (pid, route.factory) }

/-- The incoming-page block of the subscriber: a cached keep-alive runtime
whose cached params differ (`JSON.stringify` comparison: ordered key/value
equality) is destroyed and evicted, then a missing entry is freshly
instantiated, otherwise the cached node is unhidden. -/
def incomingStep (pages : List (String × Route)) (c : PageCache)
    (pageId : Option String) (params : Params) : PageCache :=
  match pageId with
  | none => { c with prev := none }
  | some pid =>
      match lookupRoute pages pid with
      | none => { c with prev := none }
      | some route =>
          match assocGet c.runtimeCache route.factory with
          | some cp =>
              if route.keepAlive ∧ cp ≠ params then
                installPage
                  { c with
                    runtimeCache := assocDelete c.runtimeCache route.factory,
                    destroyed := c.destroyed ++ [route.factory] }
                  pid route params
              else { c with prev := some (pid, route.factory) }
          | none => installPage c pid route params

/-- One run of the `currentPage` subscriber body. -/
def pageChangeStep (pages : List (String × Route)) (c : PageCache)
    (pageId : Option String) (params : Params) : PageCache :=
  incomingStep pages (outgoingStep pages c) pageId params

/-! Keep-alive scenario: limit 2, three distinct keep-alive routes. -/

def kaRouteA : Route := ⟨"A", true, none, false, compilePathPattern "/a"⟩
def kaRouteB : Route := ⟨"B", true, none, false, compilePathPattern "/b"⟩
def kaRouteC : Route := ⟨"C", true, none, false, compilePathPattern "/c"⟩

def kaPages : List (String × Route) :=
  [("/a", kaRouteA), ("/b", kaRouteB), ("/c", kaRouteC)]

def kaCache0 : PageCache := ⟨[], [], 2, none, []⟩

/-! ## Teardown (`ChainRuntime.destroy` / `ChainPageRouter.destroy`)

`ChainRuntime.destroy` ends by assigning `null` to `eventDelegator`,
`batchQueue`, `stateSubscriptions` and `nodeMap`; nullable fields are
`Option`s.  Per-node cleanup (`cleanupNodeTree`) and the delegator teardown
only empty those registries, so their net effect is captured by the terminal
assignments.  A thrown `TypeError` is `Except.error` (mutations preceding the
throw are not carried in the error value; the claims only concern whether an
error is raised). -/

structure ChainRuntimeState where
  nodeMap : Option (List (String × String))
  stateSubscriptions : Option (List String)
  nodeSubscriptions : List (String × List String)
  eventDelegator : Option Unit
  batchQueue : Option (List Operation)
  isBatchingScheduled : Bool
  animationFrameId : Option Nat
deriving DecidableEq, Repr

/-- Model of `ChainRuntime.destroy`: cancel any pending frame, reset the
queue and flag, then read `this.nodeMap.values()` and
`this.stateSubscriptions.forEach` — these reads throw a `TypeError` once the
fields have been nulled by a previous `destroy` — and finally clear and null
the registries. -/
def ChainRuntimeState.destroy (s : ChainRuntimeState) :
    Except String ChainRuntimeState :=
  match s.nodeMap with
  | none => .error "TypeError: Cannot read properties of null (reading values)"
  | some _ =>
      match s.stateSubscriptions with
      | none => .error "TypeError: Cannot read properties of null (reading forEach)"
      | some _ =>
          .ok { nodeMap := none, stateSubscriptions := none, nodeSubscriptions := [],
                eventDelegator := none, batchQueue := none,
                isBatchingScheduled := false, animationFrameId := none }

/-- A freshly constructed `ChainRuntime`. -/
def freshChainRuntime : ChainRuntimeState :=
  { nodeMap := some [], stateSubscriptions := some [], nodeSubscriptions := [],
    eventDelegator := some (), batchQueue := some [], isBatchingScheduled := false,
    animationFrameId := none }

/-- The router fields touched by `ChainPageRouter.destroy`.  Every access in
that method is guarded (`if (this._cleanupFunctions) ...`), and the method
clears its collections rather than nulling them, so it is total.  Cached
runtimes destroyed on the way are logged by their factory key. -/
structure ChainPageRouterTeardown where
  cleanupFunctions : List String
  runtimeCache : List (String × Params)
  cacheKeys : List String
  pagePaths : List String
  root : Option String
  destroyedRuntimes : List String
deriving DecidableEq, Repr

/-- Model of `ChainPageRouter.destroy`: unsubscribe and clear the cleanup set,
destroy and clear every cached runtime, clear the route table and the recency
list, drop the root reference.  (`NavManager` defines no `destroy`, so the
guarded `history.destroy` call is a no-op.) -/
def ChainPageRouterTeardown.destroy (r : ChainPageRouterTeardown) :
    ChainPageRouterTeardown :=
  { cleanupFunctions := []
    runtimeCache := []
    cacheKeys := []
    pagePaths := []
    root := none
    destroyedRuntimes := r.destroyedRuntimes ++ r.runtimeCache.map (fun kv => kv.1) }

/-! ## Theorems -/

theorem coalesce_none_of_not_attr (l : Operation) (node name v : String)
    (h : l.isSetAttrOn node name = false) :
    coalescedWith l (Operation.setAttribute node name v) = none := by
  cases l with
  | setAttribute n m w =>
      simp only [Operation.isSetAttrOn, Bool.and_eq_false_iff, beq_eq_false_iff_ne, ne_eq] at h
      simp only [coalescedWith, Operation.nodeId]
      by_cases h1 : node = n
      · by_cases h2 : name = m
        · exfalso
          rcases h with h | h
          · exact h h1.symm
          · exact h h2.symm
        · simp [h1, h2]
      · simp [h1]
  | setStyle n p w => simp [coalescedWith, Operation.nodeId]
  | setTextContent n c => simp [coalescedWith, Operation.nodeId]
  | addClass n c => simp [coalescedWith, Operation.nodeId]
  | appendChild n p c => simp [coalescedWith, Operation.nodeId]

theorem coalesce_attr_then_other_none (node name v : String) (mid : Operation)
    (h : mid.isSetAttrOn node name = false) :
    coalescedWith (Operation.setAttribute node name v) mid = none := by
  cases mid with
  | setAttribute n m w =>
      simp only [Operation.isSetAttrOn, Bool.and_eq_false_iff, beq_eq_false_iff_ne, ne_eq] at h
      simp only [coalescedWith, Operation.nodeId]
      by_cases h1 : n = node
      · by_cases h2 : m = name
        · exfalso
          rcases h with h | h
          · exact h h1
          · exact h h2
        · simp [h1, h2]
      · simp [h1]
  | setStyle n p w => simp [coalescedWith, Operation.nodeId]
  | setTextContent n c => simp [coalescedWith, Operation.nodeId]
  | addClass n c => simp [coalescedWith, Operation.nodeId]
  | appendChild n p c => simp [coalescedWith, Operation.nodeId]

theorem add_fresh_of_no_coalesce (s : List Operation) (op : Operation)
    (h : ∀ l, s.getLast? = some l → coalescedWith l op = none) :
    OperationStream.add s op = s ++ [op] := by
  cases hs : s.getLast? with
  | none => simp [OperationStream.add, hs]
  | some l => simp [OperationStream.add, hs, h l hs]

theorem add_concat_setAttr (s : List Operation) (node name v v2 : String) :
    OperationStream.add (s ++ [Operation.setAttribute node name v])
        (Operation.setAttribute node name v2)
      = s ++ [Operation.setAttribute node name v2] := by
  have hc : coalescedWith (Operation.setAttribute node name v)
      (Operation.setAttribute node name v2)
      = some (Operation.setAttribute node name v2) := by
    simp [coalescedWith, Operation.nodeId]
  simp [OperationStream.add, List.getLast?_concat, hc, List.dropLast_concat]

theorem foldl_add_setAttr (node name : String) (vs : List String) (v : String)
    (s : List Operation) :
    (vs.map (Operation.setAttribute node name)).foldl OperationStream.add
        (s ++ [Operation.setAttribute node name v])
      = s ++ [Operation.setAttribute node name (vs.getLastD v)] := by
  induction vs generalizing v with
  | nil => rfl
  | cons w ws ih =>
      simp only [List.map_cons, List.foldl_cons, add_concat_setAttr]
      rw [ih, List.getLastD_cons]

/-- C2: a run of `SetAttribute` operations on the same node id and attribute
name added with nothing in between collapses to a single stream entry holding
the last value, while two `SetAttribute` operations on the same node/name
separated by any other added operation are both retained (coalescing is
adjacent-pair only, not global). -/
theorem operationStream_add_coalescing :
    (∀ (node name : String) (s : List Operation) (v : String) (vs : List String),
        lastNotSetAttrOn s node name = true →
        ((v :: vs).map (Operation.setAttribute node name)).foldl OperationStream.add s
          = s ++ [Operation.setAttribute node name (vs.getLastD v)])
  ∧ (∀ (node name : String) (s : List Operation) (v1 v2 : String) (mid : Operation),
        lastNotSetAttrOn s node name = true →
        mid.isSetAttrOn node name = false →
        OperationStream.add
            (OperationStream.add
              (OperationStream.add s (Operation.setAttribute node name v1)) mid)
            (Operation.setAttribute node name v2)
          = s ++ [Operation.setAttribute node name v1, mid,
                  Operation.setAttribute node name v2]) := by
  have hfresh : ∀ (node name : String) (s : List Operation) (v : String),
      lastNotSetAttrOn s node name = true →
      OperationStream.add s (Operation.setAttribute node name v)
        = s ++ [Operation.setAttribute node name v] := by
    intro node name s v h
    apply add_fresh_of_no_coalesce
    intro l hl
    unfold lastNotSetAttrOn at h
    rw [hl] at h
    simp only [Bool.not_eq_true'] at h
    exact coalesce_none_of_not_attr l node name v h
  constructor
  · intro node name s v vs h
    simp only [List.map_cons, List.foldl_cons]
    rw [hfresh node name s v h, foldl_add_setAttr]
  · intro node name s v1 v2 mid h hmid
    rw [hfresh node name s v1 h]
    have h2 : OperationStream.add (s ++ [Operation.setAttribute node name v1]) mid
        = (s ++ [Operation.setAttribute node name v1]) ++ [mid] := by
      apply add_fresh_of_no_coalesce
      intro l hl
      rw [List.getLast?_concat] at hl
      cases hl
      exact coalesce_attr_then_other_none node name v1 mid hmid
    rw [h2]
    have h3 : OperationStream.add ((s ++ [Operation.setAttribute node name v1]) ++ [mid])
        (Operation.setAttribute node name v2)
        = ((s ++ [Operation.setAttribute node name v1]) ++ [mid])
            ++ [Operation.setAttribute node name v2] := by
      apply add_fresh_of_no_coalesce
      intro l hl
      rw [List.getLast?_concat] at hl
      cases hl
      exact coalesce_none_of_not_attr mid node name v2 hmid
    rw [h3]
    simp

theorem operationStream_add_coalescing_witness :
    lastNotSetAttrOn [] "n1" "class" = true
  ∧ (["a", "b", "c"].map (Operation.setAttribute "n1" "class")).foldl
        OperationStream.add []
      = [Operation.setAttribute "n1" "class" "c"]
  ∧ (Operation.setTextContent "n1" "t").isSetAttrOn "n1" "class" = false
  ∧ OperationStream.add
        (OperationStream.add
          (OperationStream.add [] (Operation.setAttribute "n1" "class" "a"))
          (Operation.setTextContent "n1" "t"))
        (Operation.setAttribute "n1" "class" "b")
      = [Operation.setAttribute "n1" "class" "a", Operation.setTextContent "n1" "t",
         Operation.setAttribute "n1" "class" "b"] :=
  ⟨by decide,
   operationStream_add_coalescing.1 "n1" "class" [] "a" ["b", "c"] (by decide),
   by decide,
   operationStream_add_coalescing.2 "n1" "class" [] "a" "b"
     (Operation.setTextContent "n1" "t") (by decide) (by decide)⟩

/-- C6: writing a value identical to the stored one under `Object.is`
(reference equality for composites, value equality for primitives) leaves the
state unchanged and invokes zero subscriber callbacks. -/
theorem chainState_set_identical_noop (s : ChainState) (v : JSValue)
    (h : objectIs s.value v = true) :
    ChainState.setValue s v = (s, []) := by
  unfold ChainState.setValue
  rw [if_pos h]

theorem chainState_set_identical_noop_witness :
    objectIs (JSValue.ref 7) (JSValue.ref 7) = true
  ∧ ChainState.setValue ⟨JSValue.ref 7, [1, 2]⟩ (JSValue.ref 7)
      = (⟨JSValue.ref 7, [1, 2]⟩, []) :=
  ⟨by decide, chainState_set_identical_noop ⟨JSValue.ref 7, [1, 2]⟩ (JSValue.ref 7) (by decide)⟩

/-- C7: `subscribe` invokes the callback exactly once, synchronously, with the
current value; while subscribed, the callback is invoked on every value change;
after the returned unsubscribe runs, the callback is no longer a subscriber and
no change notification reaches it. -/
theorem chainState_subscribe_replay_unsubscribe (s : ChainState) (cb : Nat) :
    (ChainState.subscribe s cb).2 = [(cb, s.value)]
  ∧ cb ∈ (ChainState.subscribe s cb).1.subscribers
  ∧ (∀ (t : ChainState) (v : JSValue), cb ∈ t.subscribers →
        objectIs t.value v = false → (cb, v) ∈ (ChainState.setValue t v).2)
  ∧ (∀ (t : ChainState) (v : JSValue),
        cb ∉ (ChainState.unsubscribe t cb).subscribers
        ∧ (cb, v) ∉ (ChainState.setValue (ChainState.unsubscribe t cb) v).2) := by
  refine ⟨rfl, ?_, ?_, ?_⟩
  · unfold ChainState.subscribe
    by_cases hmem : cb ∈ s.subscribers
    · simp [hmem]
    · simp [hmem]
  · intro t v hmem hne
    unfold ChainState.setValue
    rw [if_neg (by simp [hne])]
    exact List.mem_map.mpr ⟨cb, hmem, rfl⟩
  · intro t v
    have hnotmem : cb ∉ (ChainState.unsubscribe t cb).subscribers := by
      unfold ChainState.unsubscribe
      simp [List.mem_filter]
    refine ⟨hnotmem, ?_⟩
    unfold ChainState.setValue
    split
    · simp
    · intro hmem
      rcases List.mem_map.mp hmem with ⟨c, hc, hec⟩
      cases hec
      exact hnotmem hc

/-- C5: a non-immediate `execute` leaves exactly one scheduled flush pending
(a second call in the same tick still leaves exactly one); operations enqueued
while a flush is running are not applied by that flush but stay in the fresh
queue, and the next flush applies them. -/
theorem execute_batching_single_flush_and_deferral
    (s : ChainRuntimeSched) (h : ChainRuntimeSched.wf s)
    (ops ops2 d more : List Operation) :
    ((ChainRuntimeSched.execute s ops false).pendingFrames = 1
      ∧ (ChainRuntimeSched.execute (ChainRuntimeSched.execute s ops false)
          ops2 false).pendingFrames = 1)
  ∧ ((ChainRuntimeSched.flushFrame (ChainRuntimeSched.execute s ops false) d).applied
        = s.applied ++ s.batchQueue ++ ops
      ∧ (ChainRuntimeSched.flushFrame
          (ChainRuntimeSched.execute s ops false) d).batchQueue = d)
  ∧ (ChainRuntimeSched.flushFrame
        (ChainRuntimeSched.execute
          (ChainRuntimeSched.flushFrame
            (ChainRuntimeSched.execute s ops false) d) more false) []).applied
      = s.applied ++ s.batchQueue ++ ops ++ d ++ more := by
  unfold ChainRuntimeSched.wf at h
  by_cases hb : s.isBatchingScheduled
  · rw [if_pos hb] at h
    refine ⟨⟨?_, ?_⟩, ⟨?_, ?_⟩, ?_⟩ <;>
      simp [ChainRuntimeSched.execute, ChainRuntimeSched.scheduleBatchExecution,
        ChainRuntimeSched.flushFrame, hb, h]
  · rw [if_neg hb] at h
    refine ⟨⟨?_, ?_⟩, ⟨?_, ?_⟩, ?_⟩ <;>
      simp [ChainRuntimeSched.execute, ChainRuntimeSched.scheduleBatchExecution,
        ChainRuntimeSched.flushFrame, hb, h]

theorem execute_batching_single_flush_and_deferral_witness :
    ChainRuntimeSched.wf ⟨[], false, 0, []⟩
  ∧ (ChainRuntimeSched.execute ⟨[], false, 0, []⟩
        [Operation.addClass "n" "x"] false).pendingFrames = 1
  ∧ (ChainRuntimeSched.flushFrame
        (ChainRuntimeSched.execute ⟨[], false, 0, []⟩ [Operation.addClass "n" "x"] false)
        [Operation.addClass "n" "y"]).applied = [Operation.addClass "n" "x"]
  ∧ (ChainRuntimeSched.flushFrame
        (ChainRuntimeSched.execute
          (ChainRuntimeSched.flushFrame
            (ChainRuntimeSched.execute ⟨[], false, 0, []⟩
              [Operation.addClass "n" "x"] false)
            [Operation.addClass "n" "y"]) [] false) []).applied
      = [Operation.addClass "n" "x", Operation.addClass "n" "y"] :=
  ⟨by rfl,
   (execute_batching_single_flush_and_deferral ⟨[], false, 0, []⟩ (by rfl)
      [Operation.addClass "n" "x"] [] [Operation.addClass "n" "y"] []).1.1,
   (execute_batching_single_flush_and_deferral ⟨[], false, 0, []⟩ (by rfl)
      [Operation.addClass "n" "x"] [] [Operation.addClass "n" "y"] []).2.1.1,
   (execute_batching_single_flush_and_deferral ⟨[], false, 0, []⟩ (by rfl)
      [Operation.addClass "n" "x"] [] [Operation.addClass "n" "y"] []).2.2⟩

theorem chainState_subscribe_replay_unsubscribe_witness :
    (ChainState.subscribe ⟨JSValue.prim "0", []⟩ 4).2 = [(4, JSValue.prim "0")]
  ∧ (4, JSValue.prim "1") ∈
      (ChainState.setValue ⟨JSValue.prim "0", [4]⟩ (JSValue.prim "1")).2
  ∧ (4, JSValue.prim "1") ∉
      (ChainState.setValue
        (ChainState.unsubscribe ⟨JSValue.prim "0", [4]⟩ 4) (JSValue.prim "1")).2 :=
  ⟨(chainState_subscribe_replay_unsubscribe ⟨JSValue.prim "0", []⟩ 4).1,
   (chainState_subscribe_replay_unsubscribe ⟨JSValue.prim "0", []⟩ 4).2.2.1
     ⟨JSValue.prim "0", [4]⟩ (JSValue.prim "1") (by decide) (by decide),
   ((chainState_subscribe_replay_unsubscribe ⟨JSValue.prim "0", []⟩ 4).2.2.2
     ⟨JSValue.prim "0", [4]⟩ (JSValue.prim "1")).2⟩

/-- C10: `NavManager.goBack` at index 0 (the oldest history entry) changes
neither the stack nor the index and notifies no navigation listener, and the
router's `goBack` consequently changes nothing. -/
theorem navManager_goBack_at_start_noop (nav : NavManager) (r : ChainPageRouter)
    (h : nav.index = 0) (hr : r.history.index = 0) :
    NavManager.goBack nav = (nav, []) ∧ ChainPageRouter.goBack r = (r, []) := by
  constructor
  · simp [NavManager.goBack, h]
  · simp [ChainPageRouter.goBack, NavManager.goBack, hr]

theorem navManager_goBack_at_start_noop_witness :
    NavManager.goBack ⟨"/", .memory, [⟨"/", []⟩], 0⟩
      = (⟨"/", .memory, [⟨"/", []⟩], 0⟩, [])
  ∧ ChainPageRouter.goBack demoRouterGuard = (demoRouterGuard, []) :=
  navManager_goBack_at_start_noop ⟨"/", .memory, [⟨"/", []⟩], 0⟩ demoRouterGuard
    rfl rfl

/-- C3: `navigate` to a path resolving to the current page id with params
equal under own-enumerable-key comparison is a no-op: the state (currentPage
and history) is unchanged and no hook or guard is invoked (the event list is
empty). -/
theorem navigate_same_page_noop (r : ChainPageRouter) (path : String)
    (params : Params) (replace : Bool) (pageId : String) (route : Route)
    (resolved : Params)
    (hm : matchRoute r.pages path = some (pageId, route, resolved))
    (hid : r.currentPage.id = some pageId)
    (hp : areParamsChanged r.currentPage.params (objMerge resolved params) = false) :
    ChainPageRouter.navigate r path params replace = .ok (r, []) := by
  unfold ChainPageRouter.navigate
  rw [hm]
  simp [hid, hp]

theorem navigate_same_page_noop_witness :
    ChainPageRouter.navigate demoRouterAtUser "/user/42" [] false
      = .ok (demoRouterAtUser, []) :=
  navigate_same_page_noop demoRouterAtUser "/user/42" [] false "/user/:id"
    demoUserRoute [("id", "42")] (by rfl) (by rfl) (by rfl)

/-- C1: when the target route's `beforeEnter` guard resolves falsy, `navigate`
aborts: it returns the router unchanged (same `currentPage`, same history),
raises no error, and the event trace contains no commit and no history
push/replace. -/
theorem navigate_guard_false_aborts (r : ChainPageRouter) (path : String)
    (params : Params) (replace : Bool) (pageId : String) (route : Route)
    (resolved : Params) (guard : Params → Page → Bool)
    (hm : matchRoute r.pages path = some (pageId, route, resolved))
    (hch : (r.currentPage.id != some pageId
        || areParamsChanged r.currentPage.params (objMerge resolved params)) = true)
    (hg : route.beforeEnter = some guard)
    (hgf : guard (objMerge resolved params) r.currentPage = false)
    (hold : ∀ cid, r.currentPage.id = some cid →
        (lookupRoute r.pages cid).isSome = true) :
    ∃ evs, ChainPageRouter.navigate r path params replace = .ok (r, evs)
      ∧ (∀ p ps b, NavEvent.historyNav p ps b ∉ evs)
      ∧ (∀ p2 ps2, NavEvent.commit p2 ps2 ∉ evs) := by
  cases hcur : r.currentPage.id with
  | none =>
      refine ⟨[NavEvent.guardInvoked pageId], ?_, ?_, ?_⟩
      · unfold ChainPageRouter.navigate ChainPageRouter.navigateGuard
        rw [hm]
        simp [hcur, hch, hg, hgf]
      · intro p ps b
        simp
      · intro p2 ps2
        simp
  | some cid =>
      obtain ⟨oldRoute, hor⟩ := Option.isSome_iff_exists.mp (hold cid hcur)
      refine ⟨(if oldRoute.hasOnLeave then [NavEvent.onLeave cid r.currentPage.params]
          else []) ++ [NavEvent.guardInvoked pageId], ?_, ?_, ?_⟩
      · unfold ChainPageRouter.navigate ChainPageRouter.navigateGuard
        rw [hm]
        simp [hcur, hg, hgf, hor]
        intro h
        rw [hcur] at hch
        subst h
        simpa using hch
      · intro p ps b
        by_cases hol : oldRoute.hasOnLeave <;> simp [hol]
      · intro p2 ps2
        by_cases hol : oldRoute.hasOnLeave <;> simp [hol]

theorem navigate_guard_false_aborts_witness :
    ∃ evs, ChainPageRouter.navigate demoRouterGuard "/admin" [] false
        = .ok (demoRouterGuard, evs)
      ∧ (∀ p ps b, NavEvent.historyNav p ps b ∉ evs)
      ∧ (∀ p2 ps2, NavEvent.commit p2 ps2 ∉ evs) :=
  navigate_guard_false_aborts demoRouterGuard "/admin" [] false "/admin"
    demoGuardRoute [] (fun _ _ => false) (by rfl) (by rfl) (by rfl) (by rfl)
    (by intro cid hcid; simp [demoRouterGuard] at hcid)

/-- C8: a programmatic `navigate` to a path matching no registered route
surfaces a routing error to the caller, while an unmatched path arriving via a
passive location-change notification raises no error and reroutes to the
configured fallback path with a history replace (stack length and index
unchanged), not a push. -/
theorem navigate_unmatched_throws_passive_falls_back
    (r : ChainPageRouter) (loc : Location) (navPath : String) (params : Params)
    (replace : Bool) (fbId : String) (fbRoute : Route) (fbParams : Params)
    (hnav : matchRoute r.pages navPath = none)
    (hmode : r.history.mode = NavMode.history)
    (hloc : loc.path ≠ "")
    (hun : matchRoute r.pages (ChainPageRouter.pathnameOf loc.path) = none)
    (hnotfb : ChainPageRouter.pathnameOf loc.path ≠ r.fallbackPath)
    (hfb : matchRoute r.pages r.fallbackPath = some (fbId, fbRoute, fbParams))
    (hguard : fbRoute.beforeEnter = none)
    (hcur : r.currentPage.id = none)
    (hidx : r.history.index < r.history.stack.length) :
    ChainPageRouter.navigate r navPath params replace
        = .error ("Unknown route: " ++ navPath)
  ∧ (ChainPageRouter.handleLocationChange r loc).1.currentPage
      = ⟨some fbId, objMerge fbParams []⟩
  ∧ (ChainPageRouter.handleLocationChange r loc).1.history.stack.length
      = r.history.stack.length
  ∧ (ChainPageRouter.handleLocationChange r loc).1.history.index
      = r.history.index
  ∧ NavEvent.historyNav r.fallbackPath (objMerge fbParams []) true
      ∈ (ChainPageRouter.handleLocationChange r loc).2 := by
  have h1 : ChainPageRouter.navigate r navPath params replace
      = .error ("Unknown route: " ++ navPath) := by
    unfold ChainPageRouter.navigate
    rw [hnav]
  have hnavfb : ChainPageRouter.navigate r r.fallbackPath [] true
      = .ok ({ r with
                currentPage := ⟨some fbId, objMerge fbParams []⟩,
                history := { r.history with
                  stack := r.history.stack.set r.history.index
                    ⟨r.fallbackPath, objMerge fbParams []⟩ } },
             [NavEvent.commit fbId (objMerge fbParams []),
              NavEvent.historyNav r.fallbackPath (objMerge fbParams []) true,
              NavEvent.notified ⟨r.fallbackPath, objMerge fbParams []⟩]) := by
    unfold ChainPageRouter.navigate ChainPageRouter.navigateGuard
      ChainPageRouter.commitPage NavManager.navigate
    rw [hfb]
    simp [hcur, hguard, hidx]
  have hlc : ChainPageRouter.handleLocationChange r loc
      = ({ r with
            currentPage := ⟨some fbId, objMerge fbParams []⟩,
            history := { r.history with
              stack := r.history.stack.set r.history.index
                ⟨r.fallbackPath, objMerge fbParams []⟩ } },
         [NavEvent.commit fbId (objMerge fbParams []),
          NavEvent.historyNav r.fallbackPath (objMerge fbParams []) true,
          NavEvent.notified ⟨r.fallbackPath, objMerge fbParams []⟩]) := by
    unfold ChainPageRouter.handleLocationChange
    rw [if_neg hloc]
    simp [hmode, hun, hnotfb, hnavfb]
  refine ⟨h1, ?_, ?_, ?_, ?_⟩ <;> rw [hlc] <;> simp

theorem navigate_unmatched_throws_passive_falls_back_witness :
    ChainPageRouter.navigate demoRouterFallback "/nope" [] false
        = .error ("Unknown route: " ++ "/nope")
  ∧ (ChainPageRouter.handleLocationChange demoRouterFallback ⟨"/nope", []⟩).1.currentPage
      = ⟨some "/", objMerge [] []⟩
  ∧ (ChainPageRouter.handleLocationChange demoRouterFallback ⟨"/nope", []⟩).1.history.stack.length
      = demoRouterFallback.history.stack.length
  ∧ (ChainPageRouter.handleLocationChange demoRouterFallback ⟨"/nope", []⟩).1.history.index
      = demoRouterFallback.history.index
  ∧ NavEvent.historyNav demoRouterFallback.fallbackPath (objMerge [] []) true
      ∈ (ChainPageRouter.handleLocationChange demoRouterFallback ⟨"/nope", []⟩).2 :=
  navigate_unmatched_throws_passive_falls_back demoRouterFallback ⟨"/nope", []⟩
    "/nope" [] false "/" demoRootRoute [] (by rfl) (by rfl) (by decide)
    (by rfl) (by decide) (by rfl) (by rfl) (by rfl) (by decide)


theorem installPage_bound (c : PageCache) (pid : String) (route : Route)
    (ps : Params) (h : c.cacheKeys.length ≤ c.keepAliveCacheLimit) :
    (installPage c pid route ps).cacheKeys.length ≤ c.keepAliveCacheLimit := by
  unfold installPage
  dsimp only
  by_cases hka : route.keepAlive
  · simp only [hka, if_true]
    have hfl : (c.cacheKeys.filter (fun k => !(k == route.factory))).length
        ≤ c.cacheKeys.length := List.length_filter_le _ _
    by_cases hgt : (c.cacheKeys.filter (fun k => !(k == route.factory))
        ++ [route.factory]).length > c.keepAliveCacheLimit
    · rw [if_pos hgt]
      cases hcons : c.cacheKeys.filter (fun k => !(k == route.factory))
          ++ [route.factory] with
      | nil =>
          exact absurd hcons (by simp)
      | cons k rest =>
          dsimp only
          have hlen := congrArg List.length hcons
          simp at hlen
          omega
    · rw [if_neg hgt]
      dsimp only
      simp only [List.length_append, List.length_cons, List.length_nil] at hgt ⊢
      omega
  · simp only [hka, if_false]
    exact h

theorem outgoingStep_preserve (pages : List (String × Route)) (c : PageCache) :
    (outgoingStep pages c).cacheKeys = c.cacheKeys
    ∧ (outgoingStep pages c).keepAliveCacheLimit = c.keepAliveCacheLimit := by
  unfold outgoingStep
  constructor <;> (repeat' split) <;> rfl

theorem incomingStep_bound (pages : List (String × Route)) (c : PageCache)
    (pageId : Option String) (ps : Params)
    (h : c.cacheKeys.length ≤ c.keepAliveCacheLimit) :
    (incomingStep pages c pageId ps).cacheKeys.length ≤ c.keepAliveCacheLimit := by
  unfold incomingStep
  split
  · exact h
  · split
    · exact h
    · split
      · split
        · exact installPage_bound _ _ _ _ h
        · exact h
      · exact installPage_bound _ _ _ _ h

theorem pageChangeStep_bound (pages : List (String × Route)) (c : PageCache)
    (pageId : Option String) (ps : Params)
    (h : c.cacheKeys.length ≤ c.keepAliveCacheLimit) :
    (pageChangeStep pages c pageId ps).cacheKeys.length ≤ c.keepAliveCacheLimit := by
  unfold pageChangeStep
  have hpres := outgoingStep_preserve pages c
  have h2 : (outgoingStep pages c).cacheKeys.length
      ≤ (outgoingStep pages c).keepAliveCacheLimit := by
    rw [hpres.1, hpres.2]
    exact h
  have h3 := incomingStep_bound pages (outgoingStep pages c) pageId ps h2
  rwa [hpres.2] at h3

/-- C9: the keep-alive recency list (which enforces the cache bound) never
exceeds `keepAliveCacheLimit` across a page change, and with a limit of 2,
visiting three distinct keep-alive routes A, B, C in order evicts and destroys
exactly the least-recently-used entry A, leaving B and C cached. -/
theorem keepAlive_cache_lru_bound_and_eviction :
    (∀ (pages : List (String × Route)) (c : PageCache) (pageId : Option String)
        (ps : Params),
        c.cacheKeys.length ≤ c.keepAliveCacheLimit →
        (pageChangeStep pages c pageId ps).cacheKeys.length
          ≤ c.keepAliveCacheLimit)
  ∧ pageChangeStep kaPages
      (pageChangeStep kaPages
        (pageChangeStep kaPages kaCache0 (some "/a") []) (some "/b") [])
      (some "/c") []
    = ⟨[("B", []), ("C", [])], ["B", "C"], 2, some ("/c", "C"), ["A"]⟩ :=
  ⟨fun pages c pageId ps h => pageChangeStep_bound pages c pageId ps h, by rfl⟩

theorem keepAlive_cache_lru_bound_and_eviction_witness :
    kaCache0.cacheKeys.length ≤ kaCache0.keepAliveCacheLimit
  ∧ (pageChangeStep kaPages kaCache0 (some "/a") []).cacheKeys.length
      ≤ kaCache0.keepAliveCacheLimit :=
  ⟨by decide,
   keepAlive_cache_lru_bound_and_eviction.1 kaPages kaCache0 (some "/a") []
     (by decide)⟩

/-- C4: `ChainPageRouter.destroy` run twice is a safe no-op (the second run
reproduces the torn-down state exactly and raises nothing), but a second
`ChainRuntime.destroy` throws a `TypeError` — the first run nulls `nodeMap`
and the second reads `this.nodeMap.values()` — contradicting the documented
requirement that double-destroy of a runtime be an idempotent safe no-op. -/
theorem destroy_twice_runtime_throws_router_noop :
    (∀ r : ChainPageRouterTeardown,
        ChainPageRouterTeardown.destroy (ChainPageRouterTeardown.destroy r)
          = ChainPageRouterTeardown.destroy r)
  ∧ (∃ s, ChainRuntimeState.destroy freshChainRuntime = .ok s)
  ∧ (ChainRuntimeState.destroy freshChainRuntime).bind ChainRuntimeState.destroy
      = .error "TypeError: Cannot read properties of null (reading values)" := by
  refine ⟨?_, ⟨_, rfl⟩, rfl⟩
  intro r
  simp [ChainPageRouterTeardown.destroy]

end ChainUI
